import Mathlib

/-!
Shallow embedding of the batched write pipeline of influxdb-cxx
(`src/InfluxDB.cxx`, `include/InfluxDB.h`, `include/Transport.h`).

Modelling choices:
* The C++ object state (`InfluxDB`'s data members) becomes the record `DB`;
  every method becomes a function taking and returning a `DB`, together with
  a trace of observable events (transport sends and user-callback
  invocations).  Stored `std::function` callbacks are opaque user closures;
  we model each callback slot by an identity token (`Nat`) and record an
  invocation as an event carrying that token.
* The transport (`Transport::send`) is a parameter `transport :
  String → SendOutcome` describing, for each payload, whether the send
  returns normally or which exception it raises.  `raiseOther` stands for
  any exception that is none of `server_error`, `bad_request_error`,
  `connection_error`; `transmit` has no handler for it, so it propagates —
  modelled by the `escaped` flag / a `none` result.
* `std::chrono::system_clock::now()` becomes an explicit `now : Nat`
  argument at the call sites that read the clock.
* Point encoding (`Point::toLineProtocol`) is outside the present sources;
  per the spec it is a pure external serializer, so a `Point` is modelled by
  the line-protocol string it encodes to.
* The mutex and the background flushing thread are concurrency apparatus;
  the claims treated here are about the sequential semantics of the methods,
  so `batchOf` records the configured size and timeout but thread
  start/join is not modelled.
-/

namespace InfluxDBSpec

/-- `enum TransmissionResult` from `include/InfluxDB.h` lines 27-33. -/
inductive TransmissionResult where
  | TransmissionSucceeded
  | PointsBatched
  | ServerError
  | BadRequest
  | ConnectionFailed
deriving DecidableEq, Repr

/-- `enum ConnectionStatus` from `include/InfluxDB.h` lines 88-92. -/
inductive ConnectionStatus where
  | Unknown
  | ConnectionSuccess
  | ConnectionError
deriving DecidableEq, Repr

/-- Behaviour of one `Transport::send(payload)` call: return normally, or
raise one of the three categorized exceptions, or raise anything else. -/
inductive SendOutcome where
  | sendOk
  | raiseServerError
  | raiseBadRequest
  | raiseConnectionError
  | raiseOther
deriving DecidableEq, Repr

/-- Observable events of a run: payloads handed to `Transport::send`, and
invocations of the stored user callbacks (tagged with the identity token of
the closure stored in the slot at invocation time). -/
inductive Event where
  | sent (payload : String)
  | calledBadRequest (id : Nat)
  | calledConnectionError (id : Nat)
  | calledConnectionSuccess (id : Nat)
deriving DecidableEq, Repr

/-- A `Point` as the core sees it: an opaque value whose only used operation
is `toLineProtocol()` (the external pure encoder). -/
structure Point where
  toLineProtocol : String
deriving DecidableEq, Repr

/-- The data members of class `InfluxDB` (`include/InfluxDB.h` lines
117-158) that the sequential semantics reads or writes.  Callback slots
hold identity tokens of the stored closures. -/
structure DB where
  mLineProtocolBatch : List String
  mIsBatchingActivated : Bool
  mBatchSize : Nat
  mGlobalTags : String
  mFlushingTimeout : Nat
  mOnBadRequest : Nat
  mOnConnectionError : Nat
  mOnConnectionSucceeded : Nat
  mLastConnectionStatus : ConnectionStatus
  mLastFlushTime : Nat
deriving DecidableEq, Repr

/-- The constructor `InfluxDB::InfluxDB` (`InfluxDB.cxx` lines 26-39):
empty batch, batching off, size 0, empty global tags, default (identity 0)
callbacks, status `Unknown`, `mLastFlushTime = now`. -/
def mkInfluxDB (now : Nat) : DB :=
  { mLineProtocolBatch := []
    mIsBatchingActivated := false
    mBatchSize := 0
    mGlobalTags := ""
    mFlushingTimeout := 0
    mOnBadRequest := 0
    mOnConnectionError := 0
    mOnConnectionSucceeded := 0
    mLastConnectionStatus := ConnectionStatus.Unknown
    mLastFlushTime := now }

/-- `InfluxDB::batchOf` (`InfluxDB.cxx` lines 70-83), state part: records
the batch size, activates batching, records the flushing timeout.  (The
thread start/join on the timeout sign is background-scheduler apparatus,
not modelled.) -/
def batchOf (db : DB) (batchSize : Nat) (flushingTimeout : Nat) : DB :=
  { db with
      mBatchSize := batchSize
      mIsBatchingActivated := true
      mFlushingTimeout := flushingTimeout }

/-- `InfluxDB::addGlobalTag` (`InfluxDB.cxx` lines 170-177): appends
`key=value` to `mGlobalTags`, comma-separated when nonempty. -/
def addGlobalTag (db : DB) (key value : String) : DB :=
  { db with
      mGlobalTags :=
        (if db.mGlobalTags = "" then db.mGlobalTags
         else db.mGlobalTags ++ ",") ++ key ++ "=" ++ value }

/-- `InfluxDB::joinLineProtocolBatch` (`InfluxDB.cxx` lines 160-168):
concatenates every batched line followed by a newline. -/
def joinLineProtocolBatch (db : DB) : String :=
  db.mLineProtocolBatch.foldl (fun joinedBatch line => joinedBatch ++ line ++ "\n") ""

/-- `InfluxDB::transmit` (`InfluxDB.cxx` lines 179-199): calls
`mTransport->send`, mapping `server_error` to `ServerError`,
`bad_request_error` to `BadRequest`, `connection_error` to
`ConnectionFailed`, no exception to `TransmissionSucceeded`.  Any other
exception has no handler: the result is `none` (propagation).  The event
records that the payload reached the transport. -/
def transmit (transport : String → SendOutcome) (lineprotocol : String) :
    Option TransmissionResult × List Event :=
  (match transport lineprotocol with
   | SendOutcome.sendOk => some TransmissionResult.TransmissionSucceeded
   | SendOutcome.raiseServerError => some TransmissionResult.ServerError
   | SendOutcome.raiseBadRequest => some TransmissionResult.BadRequest
   | SendOutcome.raiseConnectionError => some TransmissionResult.ConnectionFailed
   | SendOutcome.raiseOther => none,
   [Event.sent lineprotocol])

/-- `InfluxDB::notifyConnectionError` (`InfluxDB.cxx` lines 146-151):
returns unless the stored status differs from `ConnectionError`; otherwise
stores `ConnectionError` and invokes the stored error callback. -/
def notifyConnectionError (db : DB) : DB × List Event :=
  if db.mLastConnectionStatus = ConnectionStatus.ConnectionError then
    (db, [])
  else
    ({ db with mLastConnectionStatus := ConnectionStatus.ConnectionError },
     [Event.calledConnectionError db.mOnConnectionError])

/-- `InfluxDB::notifyConnectionSuccess` (`InfluxDB.cxx` lines 153-158):
returns unless the stored status differs from `ConnectionSuccess`;
otherwise stores `ConnectionSuccess` and invokes the stored success
callback. -/
def notifyConnectionSuccess (db : DB) : DB × List Event :=
  if db.mLastConnectionStatus = ConnectionStatus.ConnectionSuccess then
    (db, [])
  else
    ({ db with mLastConnectionStatus := ConnectionStatus.ConnectionSuccess },
     [Event.calledConnectionSuccess db.mOnConnectionSucceeded])

/-- `InfluxDB::sendNotifications` (`InfluxDB.cxx` lines 127-144): on
`BadRequest` invoke the bad-request callback; then `TransmissionSucceeded`,
`ServerError` and `BadRequest` drive `notifyConnectionSuccess`, anything
else drives `notifyConnectionError`. -/
def sendNotifications (db : DB) (transmissionResult : TransmissionResult) :
    DB × List Event :=
  let badRequestEvents :=
    if transmissionResult = TransmissionResult.BadRequest then
      [Event.calledBadRequest db.mOnBadRequest]
    else []
  let notified :=
    if transmissionResult = TransmissionResult.TransmissionSucceeded ∨
       transmissionResult = TransmissionResult.ServerError ∨
       transmissionResult = TransmissionResult.BadRequest then
      notifyConnectionSuccess db
    else
      notifyConnectionError db
  (notified.1, badRequestEvents ++ notified.2)

/-- `InfluxDB::flushBatch` (`InfluxDB.cxx` lines 109-125): set
`mLastFlushTime` to now; if batching is off or the batch is empty, return;
otherwise transmit the joined batch, send notifications, and clear the
batch exactly when the result is `TransmissionSucceeded` or `BadRequest`.
The `Bool` is true when an unhandled exception escaped from `transmit`
(in which case neither notifications nor clearing happen). -/
def flushBatch (transport : String → SendOutcome) (now : Nat) (db : DB) :
    DB × List Event × Bool :=
  let db := { db with mLastFlushTime := now }
  if db.mIsBatchingActivated = false ∨ db.mLineProtocolBatch = [] then
    (db, [], false)
  else
    let sent := transmit transport (joinLineProtocolBatch db)
    match sent.1 with
    | some transmissionResult =>
      let notified := sendNotifications db transmissionResult
      let db3 :=
        if transmissionResult = TransmissionResult.TransmissionSucceeded ∨
           transmissionResult = TransmissionResult.BadRequest then
          { notified.1 with mLineProtocolBatch := [] }
        else notified.1
      (db3, sent.2 ++ notified.2, false)
    | none => (db, sent.2, true)

/-- `InfluxDB::addPointToBatch` (`InfluxDB.cxx` lines 237-245): append the
encoded line; if the batch size reached `mBatchSize`, flush. -/
def addPointToBatch (transport : String → SendOutcome) (now : Nat)
    (db : DB) (point : Point) : DB × List Event × Bool :=
  let db := { db with
      mLineProtocolBatch := db.mLineProtocolBatch ++ [point.toLineProtocol] }
  if db.mBatchSize ≤ db.mLineProtocolBatch.length then
    flushBatch transport now db
  else
    (db, [], false)

/-- `InfluxDB::write(Point&&)` (`InfluxDB.cxx` lines 201-214): with
batching activated, add the point to the batch and return `PointsBatched`;
otherwise transmit the encoded point immediately and return the classified
result.  A `none` result means an unhandled exception escaped. -/
def write (transport : String → SendOutcome) (now : Nat)
    (db : DB) (point : Point) : DB × List Event × Option TransmissionResult :=
  if db.mIsBatchingActivated then
    let added := addPointToBatch transport now db point
    (added.1, added.2.1,
     if added.2.2 then none else some TransmissionResult.PointsBatched)
  else
    let sent := transmit transport point.toLineProtocol
    (db, sent.2, sent.1)

/-- The batched loop of `InfluxDB::write(std::vector<Point>&&)`
(`InfluxDB.cxx` lines 221-223): add each point in order; an exception
escaping from a capacity-triggered flush aborts the loop. -/
def addAllPoints (transport : String → SendOutcome) (now : Nat)
    (db : DB) (events : List Event) :
    List Point → DB × List Event × Bool
  | [] => (db, events, false)
  | point :: rest =>
    let added := addPointToBatch transport now db point
    if added.2.2 then (added.1, events ++ added.2.1, true)
    else addAllPoints transport now added.1 (events ++ added.2.1) rest

/-- `InfluxDB::write(std::vector<Point>&&)` (`InfluxDB.cxx` lines 216-235);
the unbatched arm joins all lines with newlines into one payload. -/
def writeMany (transport : String → SendOutcome) (now : Nat)
    (db : DB) (points : List Point) : DB × List Event × Option TransmissionResult :=
  if db.mIsBatchingActivated then
    let added := addAllPoints transport now db [] points
    (added.1, added.2.1,
     if added.2.2 then none else some TransmissionResult.PointsBatched)
  else
    let lineprotocol :=
      points.foldl (fun acc point => acc ++ point.toLineProtocol ++ "\n") ""
    let sent := transmit transport lineprotocol
    (db, sent.2, sent.1)

/-- `InfluxDB::onConnectionError` (`InfluxDB.cxx` lines 289-296): store the
callback; if the stored status is `ConnectionError`, invoke it. -/
def onConnectionError (db : DB) (callback : Nat) : DB × List Event :=
  let db := { db with mOnConnectionError := callback }
  if db.mLastConnectionStatus = ConnectionStatus.ConnectionError then
    (db, [Event.calledConnectionError db.mOnConnectionError])
  else
    (db, [])

/-- `InfluxDB::onBadRequest` (`InfluxDB.cxx` lines 298-301): store the
callback; nothing is invoked. -/
def onBadRequest (db : DB) (callback : Nat) : DB × List Event :=
  ({ db with mOnBadRequest := callback }, [])

/-- `InfluxDB::onTransmissionSucceeded` (`InfluxDB.cxx` lines 303-310):
store the callback; if the stored status is `ConnectionSuccess`, invoke
it. -/
def onTransmissionSucceeded (db : DB) (callback : Nat) : DB × List Event :=
  let db := { db with mOnConnectionSucceeded := callback }
  if db.mLastConnectionStatus = ConnectionStatus.ConnectionSuccess then
    (db, [Event.calledConnectionSuccess db.mOnConnectionSucceeded])
  else
    (db, [])

/-- Number of bad-request callback invocations in a trace. -/
def countBadRequestCalls (events : List Event) : Nat :=
  (events.filter fun e =>
    match e with
    | Event.calledBadRequest _ => true
    | _ => false).length

/-- Number of error callback invocations in a trace. -/
def countErrorCalls (events : List Event) : Nat :=
  (events.filter fun e =>
    match e with
    | Event.calledConnectionError _ => true
    | _ => false).length

/-- Number of success callback invocations in a trace. -/
def countSuccessCalls (events : List Event) : Nat :=
  (events.filter fun e =>
    match e with
    | Event.sent _ => false
    | Event.calledConnectionSuccess _ => true
    | _ => false).length

/-- Number of transport sends in a trace. -/
def countSends (events : List Event) : Nat :=
  (events.filter fun e =>
    match e with
    | Event.sent _ => true
    | _ => false).length

/-- Feed a sequence of classified transmission results through
`sendNotifications`, accumulating the notifier state and the trace
(this is what successive flushes do with their classified outcomes). -/
def runOutcomes (db : DB) : List TransmissionResult → DB × List Event
  | [] => (db, [])
  | r :: rest =>
    let (db1, evs1) := sendNotifications db r
    let (db2, evs2) := runOutcomes db1 rest
    (db2, evs1 ++ evs2)

/-- Number of transitions of the stored connection status into `target`
while feeding the outcome sequence through `sendNotifications`. -/
def transitionsInto (target : ConnectionStatus) (db : DB) :
    List TransmissionResult → Nat
  | [] => 0
  | r :: rest =>
    let db1 := (sendNotifications db r).1
    (if db1.mLastConnectionStatus = target ∧
        db.mLastConnectionStatus ≠ target then 1 else 0)
    + transitionsInto target db1 rest

/-- Whether `fragment` occurs contiguously inside `payload`. -/
def containsFragment (payload fragment : String) : Bool :=
  decide (fragment.toList <:+: payload.toList)

/-- A state with batching activated (size 5) and one pending encoded line;
used to instantiate theorems at concrete inputs. -/
def dbWithPending : DB :=
  { batchOf (mkInfluxDB 0) 5 0 with mLineProtocolBatch := ["m f=1i"] }

/-! ### Helper lemmas about the notifier -/

theorem notifyConnectionSuccess_state (db : DB) :
    (notifyConnectionSuccess db).1 = db ∨
    (notifyConnectionSuccess db).1 =
      { db with mLastConnectionStatus := ConnectionStatus.ConnectionSuccess } := by
  unfold notifyConnectionSuccess
  split
  · exact Or.inl rfl
  · exact Or.inr rfl

theorem notifyConnectionError_state (db : DB) :
    (notifyConnectionError db).1 = db ∨
    (notifyConnectionError db).1 =
      { db with mLastConnectionStatus := ConnectionStatus.ConnectionError } := by
  unfold notifyConnectionError
  split
  · exact Or.inl rfl
  · exact Or.inr rfl

theorem sendNotifications_state (db : DB) (r : TransmissionResult) :
    (sendNotifications db r).1 = db ∨
    (sendNotifications db r).1 =
      { db with mLastConnectionStatus := ConnectionStatus.ConnectionSuccess } ∨
    (sendNotifications db r).1 =
      { db with mLastConnectionStatus := ConnectionStatus.ConnectionError } := by
  unfold sendNotifications
  dsimp only
  split
  · rcases notifyConnectionSuccess_state db with h | h
    · exact Or.inl h
    · exact Or.inr (Or.inl h)
  · rcases notifyConnectionError_state db with h | h
    · exact Or.inl h
    · exact Or.inr (Or.inr h)

theorem sendNotifications_batch_eq (db : DB) (r : TransmissionResult) :
    (sendNotifications db r).1.mLineProtocolBatch = db.mLineProtocolBatch := by
  rcases sendNotifications_state db r with h | h | h <;> rw [h]

theorem sendNotifications_time_eq (db : DB) (r : TransmissionResult) :
    (sendNotifications db r).1.mLastFlushTime = db.mLastFlushTime := by
  rcases sendNotifications_state db r with h | h | h <;> rw [h]

theorem notifyConnectionSuccess_events (db : DB) :
    (notifyConnectionSuccess db).2 = [] ∨
    (notifyConnectionSuccess db).2 =
      [Event.calledConnectionSuccess db.mOnConnectionSucceeded] := by
  unfold notifyConnectionSuccess
  split
  · exact Or.inl rfl
  · exact Or.inr rfl

theorem notifyConnectionError_events (db : DB) :
    (notifyConnectionError db).2 = [] ∨
    (notifyConnectionError db).2 =
      [Event.calledConnectionError db.mOnConnectionError] := by
  unfold notifyConnectionError
  split
  · exact Or.inl rfl
  · exact Or.inr rfl

theorem countSends_append (a b : List Event) :
    countSends (a ++ b) = countSends a + countSends b := by
  simp [countSends, List.filter_append]

theorem sendNotifications_no_sends (db : DB) (r : TransmissionResult) :
    countSends (sendNotifications db r).2 = 0 := by
  unfold sendNotifications
  dsimp only
  rw [countSends_append]
  split <;> split <;>
    first
      | (rcases notifyConnectionSuccess_events db with h | h <;> rw [h] <;>
          simp [countSends])
      | (rcases notifyConnectionError_events db with h | h <;> rw [h] <;>
          simp [countSends])

/-- C8: `transmit` classifies every transport outcome: connection fault →
`ConnectionFailed`, malformed-request fault → `BadRequest`, server fault →
`ServerError`, no fault → `Succeeded`; any other fault is not absorbed (it
propagates, i.e. no classified result is produced). -/
theorem transmit_classifies_closed_set (transport : String → SendOutcome)
    (payload : String) :
    (transport payload = SendOutcome.sendOk →
      (transmit transport payload).1 = some TransmissionResult.TransmissionSucceeded) ∧
    (transport payload = SendOutcome.raiseConnectionError →
      (transmit transport payload).1 = some TransmissionResult.ConnectionFailed) ∧
    (transport payload = SendOutcome.raiseBadRequest →
      (transmit transport payload).1 = some TransmissionResult.BadRequest) ∧
    (transport payload = SendOutcome.raiseServerError →
      (transmit transport payload).1 = some TransmissionResult.ServerError) ∧
    (transport payload = SendOutcome.raiseOther →
      (transmit transport payload).1 = none) := by
  refine ⟨?_, ?_, ?_, ?_, ?_⟩ <;> intro h <;> simp [transmit, h]

/-- Witness for C8 at the five concrete constant transports. -/
theorem transmit_classifies_closed_set_witness :
    (transmit (fun _ => SendOutcome.sendOk) "p").1 =
      some TransmissionResult.TransmissionSucceeded ∧
    (transmit (fun _ => SendOutcome.raiseConnectionError) "p").1 =
      some TransmissionResult.ConnectionFailed ∧
    (transmit (fun _ => SendOutcome.raiseBadRequest) "p").1 =
      some TransmissionResult.BadRequest ∧
    (transmit (fun _ => SendOutcome.raiseServerError) "p").1 =
      some TransmissionResult.ServerError ∧
    (transmit (fun _ => SendOutcome.raiseOther) "p").1 = none :=
  ⟨(transmit_classifies_closed_set (fun _ => SendOutcome.sendOk) "p").1 rfl,
   (transmit_classifies_closed_set (fun _ => SendOutcome.raiseConnectionError) "p").2.1 rfl,
   (transmit_classifies_closed_set (fun _ => SendOutcome.raiseBadRequest) "p").2.2.1 rfl,
   (transmit_classifies_closed_set (fun _ => SendOutcome.raiseServerError) "p").2.2.2.1 rfl,
   (transmit_classifies_closed_set (fun _ => SendOutcome.raiseOther) "p").2.2.2.2 rfl⟩

/-- C9: every flush attempt sets `mLastFlushTime` to the current time,
whatever the transmission outcome; a flush with an empty buffer performs
no transmission, fires no callbacks, and changes nothing else. -/
theorem flush_always_updates_lastFlushTime (transport : String → SendOutcome)
    (now : Nat) (db : DB) :
    (flushBatch transport now db).1.mLastFlushTime = now ∧
    (db.mLineProtocolBatch = [] →
      flushBatch transport now db = ({ db with mLastFlushTime := now }, [], false)) := by
  constructor
  · unfold flushBatch
    dsimp only
    split
    · rfl
    · split
      · split
        · simp [sendNotifications_time_eq]
        · simp [sendNotifications_time_eq]
      · rfl
  · intro h
    unfold flushBatch
    dsimp only
    split
    · rfl
    · rename_i hcond
      exact absurd (Or.inr h) hcond

/-- Witness for C9: empty-buffer flush at time 7 only moves the clock. -/
theorem flush_always_updates_lastFlushTime_witness :
    flushBatch (fun _ => SendOutcome.raiseConnectionError) 7 (mkInfluxDB 0) =
      ({ mkInfluxDB 0 with mLastFlushTime := 7 }, [], false) :=
  (flush_always_updates_lastFlushTime
    (fun _ => SendOutcome.raiseConnectionError) 7 (mkInfluxDB 0)).2 rfl

theorem transmit_sends (transport : String → SendOutcome) (payload : String) :
    (transmit transport payload).2 = [Event.sent payload] := rfl

theorem joinLineProtocolBatch_time (db : DB) (now : Nat) :
    joinLineProtocolBatch { db with mLastFlushTime := now } =
      joinLineProtocolBatch db := rfl

/-- C2: a flush of a non-empty buffer (batching active) clears the buffer
when the transmission is classified `Succeeded` or `BadRequest`, and leaves
it exactly as it was when classified `ServerError` or `ConnectionFailed`. -/
theorem flush_clears_or_retains (transport : String → SendOutcome) (now : Nat)
    (db : DB) (hact : db.mIsBatchingActivated = true)
    (hne : db.mLineProtocolBatch ≠ []) :
    ((transport (joinLineProtocolBatch db) = SendOutcome.sendOk ∨
      transport (joinLineProtocolBatch db) = SendOutcome.raiseBadRequest) →
      (flushBatch transport now db).1.mLineProtocolBatch = []) ∧
    ((transport (joinLineProtocolBatch db) = SendOutcome.raiseServerError ∨
      transport (joinLineProtocolBatch db) = SendOutcome.raiseConnectionError) →
      (flushBatch transport now db).1.mLineProtocolBatch = db.mLineProtocolBatch) := by
  constructor <;> intro h <;>
    unfold flushBatch <;> dsimp only <;>
    rw [if_neg (by simp [hact, hne]), joinLineProtocolBatch_time] <;>
    rcases h with h | h <;>
    simp [transmit, h, sendNotifications_batch_eq]

/-- Witness for C2: one pending line; success clears, server error
retains. -/
theorem flush_clears_or_retains_witness :
    (flushBatch (fun _ => SendOutcome.sendOk) 2 dbWithPending).1.mLineProtocolBatch = [] ∧
    (flushBatch (fun _ => SendOutcome.raiseServerError) 2 dbWithPending).1.mLineProtocolBatch =
      dbWithPending.mLineProtocolBatch :=
  ⟨(flush_clears_or_retains (fun _ => SendOutcome.sendOk) 2 dbWithPending
      (by decide) (by decide)).1 (Or.inl rfl),
   (flush_clears_or_retains (fun _ => SendOutcome.raiseServerError) 2 dbWithPending
      (by decide) (by decide)).2 (Or.inl rfl)⟩

/-- C10: an unbatched write hands the encoded point to the transport and
returns the classified result, but invokes no callback and leaves the
entire object state (buffer, connection status, everything) unchanged,
whatever the outcome. -/
theorem unbatched_write_frame (transport : String → SendOutcome) (now : Nat)
    (db : DB) (point : Point)
    (hunb : db.mIsBatchingActivated = false) :
    (write transport now db point).1 = db ∧
    (write transport now db point).2.1 = [Event.sent point.toLineProtocol] ∧
    countBadRequestCalls (write transport now db point).2.1 = 0 ∧
    countErrorCalls (write transport now db point).2.1 = 0 ∧
    countSuccessCalls (write transport now db point).2.1 = 0 ∧
    (write transport now db point).2.2 = (transmit transport point.toLineProtocol).1 := by
  unfold write
  rw [if_neg (by simp [hunb])]
  exact ⟨rfl, rfl, rfl, rfl, rfl, rfl⟩

/-- Witness for C10: unbatched write against a transport that raises
`bad_request_error` — result classified, state untouched, trace has the
send but no callback invocation. -/
theorem unbatched_write_frame_witness :
    (write (fun _ => SendOutcome.raiseBadRequest) 1 (mkInfluxDB 0) ⟨"m f=1i"⟩).1 =
      mkInfluxDB 0 ∧
    countBadRequestCalls
      (write (fun _ => SendOutcome.raiseBadRequest) 1 (mkInfluxDB 0) ⟨"m f=1i"⟩).2.1 = 0 :=
  ⟨(unbatched_write_frame (fun _ => SendOutcome.raiseBadRequest) 1 (mkInfluxDB 0)
      ⟨"m f=1i"⟩ rfl).1,
   (unbatched_write_frame (fun _ => SendOutcome.raiseBadRequest) 1 (mkInfluxDB 0)
      ⟨"m f=1i"⟩ rfl).2.2.1⟩

theorem flushBatch_sends_nonempty (transport : String → SendOutcome) (now : Nat)
    (db : DB) (hact : db.mIsBatchingActivated = true)
    (hne : db.mLineProtocolBatch ≠ []) :
    countSends (flushBatch transport now db).2.1 = 1 := by
  unfold flushBatch
  dsimp only
  rw [if_neg (by simp [hact, hne]), joinLineProtocolBatch_time]
  rcases h : transport (joinLineProtocolBatch db) with _ | _ | _ | _ | _ <;>
    simp only [transmit, h] <;>
    first
      | (rw [countSends_append, sendNotifications_no_sends]; rfl)
      | rfl

/-- C7: with batching active, an append that makes the batch reach or pass
`mBatchSize` makes `addPointToBatch` behave as exactly one synchronous
`flushBatch` on the appended state (one transport send happens when, as
here, the appended batch is nonempty); an append that stays strictly below
`mBatchSize` only appends — no flush, no send, no other change. -/
theorem capacity_crossing_triggers_flush (transport : String → SendOutcome)
    (now : Nat) (db : DB) (point : Point)
    (hact : db.mIsBatchingActivated = true) :
    (db.mBatchSize ≤ db.mLineProtocolBatch.length + 1 →
      addPointToBatch transport now db point =
        flushBatch transport now
          { db with mLineProtocolBatch :=
              db.mLineProtocolBatch ++ [point.toLineProtocol] } ∧
      countSends (addPointToBatch transport now db point).2.1 = 1) ∧
    (db.mLineProtocolBatch.length + 1 < db.mBatchSize →
      addPointToBatch transport now db point =
        ({ db with mLineProtocolBatch :=
            db.mLineProtocolBatch ++ [point.toLineProtocol] }, [], false)) := by
  constructor
  · intro h
    have heq : addPointToBatch transport now db point =
        flushBatch transport now
          { db with mLineProtocolBatch :=
              db.mLineProtocolBatch ++ [point.toLineProtocol] } := by
      unfold addPointToBatch
      dsimp only
      rw [if_pos (by simp; omega)]
    refine ⟨heq, ?_⟩
    rw [heq]
    exact flushBatch_sends_nonempty transport now _ hact (by simp)
  · intro h
    unfold addPointToBatch
    dsimp only
    rw [if_neg (by simp; omega)]

/-- Witness for C7: capacity 2; the first append stays below capacity and
sends nothing, the second reaches it and sends once. -/
theorem capacity_crossing_triggers_flush_witness :
    addPointToBatch (fun _ => SendOutcome.sendOk) 1 (batchOf (mkInfluxDB 0) 2 0)
        ⟨"a f=1i"⟩ =
      ({ batchOf (mkInfluxDB 0) 2 0 with mLineProtocolBatch := ["a f=1i"] }, [], false) ∧
    countSends
      (addPointToBatch (fun _ => SendOutcome.sendOk) 1
        { batchOf (mkInfluxDB 0) 2 0 with mLineProtocolBatch := ["a f=1i"] }
        ⟨"b f=2i"⟩).2.1 = 1 :=
  ⟨(capacity_crossing_triggers_flush (fun _ => SendOutcome.sendOk) 1
      (batchOf (mkInfluxDB 0) 2 0) ⟨"a f=1i"⟩ rfl).2 (by decide),
   ((capacity_crossing_triggers_flush (fun _ => SendOutcome.sendOk) 1
      { batchOf (mkInfluxDB 0) 2 0 with mLineProtocolBatch := ["a f=1i"] }
      ⟨"b f=2i"⟩ rfl).1 (by decide)).2⟩

theorem countErrorCalls_append (a b : List Event) :
    countErrorCalls (a ++ b) = countErrorCalls a + countErrorCalls b := by
  simp [countErrorCalls, List.filter_append]

theorem countSuccessCalls_append (a b : List Event) :
    countSuccessCalls (a ++ b) = countSuccessCalls a + countSuccessCalls b := by
  simp [countSuccessCalls, List.filter_append]

theorem countBadRequestCalls_append (a b : List Event) :
    countBadRequestCalls (a ++ b) =
      countBadRequestCalls a + countBadRequestCalls b := by
  simp [countBadRequestCalls, List.filter_append]

theorem sendNotifications_errorCalls (db : DB) (r : TransmissionResult) :
    countErrorCalls (sendNotifications db r).2 =
      if (sendNotifications db r).1.mLastConnectionStatus =
            ConnectionStatus.ConnectionError ∧
         db.mLastConnectionStatus ≠ ConnectionStatus.ConnectionError then 1
      else 0 := by
  cases r <;> cases h : db.mLastConnectionStatus <;>
    simp [sendNotifications, notifyConnectionSuccess, notifyConnectionError, h,
      countErrorCalls]

theorem sendNotifications_successCalls (db : DB) (r : TransmissionResult) :
    countSuccessCalls (sendNotifications db r).2 =
      if (sendNotifications db r).1.mLastConnectionStatus =
            ConnectionStatus.ConnectionSuccess ∧
         db.mLastConnectionStatus ≠ ConnectionStatus.ConnectionSuccess then 1
      else 0 := by
  cases r <;> cases h : db.mLastConnectionStatus <;>
    simp [sendNotifications, notifyConnectionSuccess, notifyConnectionError, h,
      countSuccessCalls]

theorem runOutcomes_edge_calls (db : DB) (rs : List TransmissionResult) :
    countErrorCalls (runOutcomes db rs).2 =
      transitionsInto ConnectionStatus.ConnectionError db rs ∧
    countSuccessCalls (runOutcomes db rs).2 =
      transitionsInto ConnectionStatus.ConnectionSuccess db rs := by
  induction rs generalizing db with
  | nil =>
    simp [runOutcomes, transitionsInto, countErrorCalls, countSuccessCalls]
  | cons r rest ih =>
    unfold runOutcomes transitionsInto
    dsimp only
    rw [countErrorCalls_append, countSuccessCalls_append,
      (ih (sendNotifications db r).1).1, (ih (sendNotifications db r).1).2,
      sendNotifications_errorCalls, sendNotifications_successCalls]
    exact ⟨rfl, rfl⟩

theorem sendNotifications_connFailed_stable (db : DB)
    (h : db.mLastConnectionStatus = ConnectionStatus.ConnectionError) :
    sendNotifications db TransmissionResult.ConnectionFailed = (db, []) := by
  simp [sendNotifications, notifyConnectionError, h]

theorem sendNotifications_connFailed_status (db : DB) :
    (sendNotifications db TransmissionResult.ConnectionFailed).1.mLastConnectionStatus =
      ConnectionStatus.ConnectionError := by
  unfold sendNotifications
  dsimp only
  rw [if_neg (by simp)]
  unfold notifyConnectionError
  split
  · assumption
  · rfl

theorem runOutcomes_replicate_stable (m : Nat) (db : DB)
    (h : db.mLastConnectionStatus = ConnectionStatus.ConnectionError) :
    countErrorCalls
      (runOutcomes db (List.replicate m TransmissionResult.ConnectionFailed)).2 = 0 := by
  induction m generalizing db with
  | zero => simp [runOutcomes, countErrorCalls]
  | succ m ih =>
    rw [List.replicate_succ]
    unfold runOutcomes
    dsimp only
    rw [countErrorCalls_append, sendNotifications_connFailed_stable db h]
    have := ih db h
    simp [countErrorCalls] at this ⊢
    exact this

theorem runOutcomes_connFailed_once (n : Nat) (db : DB) (h1 : 1 ≤ n)
    (h2 : db.mLastConnectionStatus ≠ ConnectionStatus.ConnectionError) :
    countErrorCalls
      (runOutcomes db (List.replicate n TransmissionResult.ConnectionFailed)).2 = 1 := by
  obtain ⟨m, rfl⟩ : ∃ m, n = m + 1 := ⟨n - 1, by omega⟩
  rw [List.replicate_succ]
  unfold runOutcomes
  dsimp only
  rw [countErrorCalls_append]
  have hfire :
      countErrorCalls (sendNotifications db TransmissionResult.ConnectionFailed).2 = 1 := by
    rw [sendNotifications_errorCalls,
      if_pos ⟨sendNotifications_connFailed_status db, h2⟩]
  rw [hfire,
    runOutcomes_replicate_stable m (sendNotifications db TransmissionResult.ConnectionFailed).1
      (sendNotifications_connFailed_status db)]

/-- C4: over any sequence of classified outcomes fed to the notifier, the
error callback fires exactly as many times as the stored status transitions
into `ConnectionError`, and the success callback exactly as many times as
it transitions into `ConnectionSuccess`; in particular n ≥ 1 consecutive
`ConnectionFailed` outcomes from a non-error state fire the error callback
exactly once. -/
theorem callbacks_fire_once_per_transition (db : DB)
    (rs : List TransmissionResult) (n : Nat) :
    countErrorCalls (runOutcomes db rs).2 =
      transitionsInto ConnectionStatus.ConnectionError db rs ∧
    countSuccessCalls (runOutcomes db rs).2 =
      transitionsInto ConnectionStatus.ConnectionSuccess db rs ∧
    (1 ≤ n → db.mLastConnectionStatus ≠ ConnectionStatus.ConnectionError →
      countErrorCalls
        (runOutcomes db (List.replicate n TransmissionResult.ConnectionFailed)).2 = 1) :=
  ⟨(runOutcomes_edge_calls db rs).1, (runOutcomes_edge_calls db rs).2,
   fun h1 h2 => runOutcomes_connFailed_once n db h1 h2⟩

/-- Witness for C4: three consecutive `ConnectionFailed` outcomes from the
initial state fire the error callback exactly once. -/
theorem callbacks_fire_once_per_transition_witness :
    countErrorCalls
      (runOutcomes (mkInfluxDB 0)
        (List.replicate 3 TransmissionResult.ConnectionFailed)).2 = 1 :=
  (callbacks_fire_once_per_transition (mkInfluxDB 0) [] 3).2.2
    (by decide) (by decide)

/-! ### Global tags never reach the data path -/

theorem sendNotifications_tags (db : DB) (tags : String) (r : TransmissionResult) :
    (sendNotifications { db with mGlobalTags := tags } r).2 =
      (sendNotifications db r).2 := by
  cases db
  unfold sendNotifications notifyConnectionSuccess notifyConnectionError
  dsimp only
  split <;> split <;> first
    | rfl
    | (split <;> rfl)

theorem flushBatch_tags (transport : String → SendOutcome) (now : Nat)
    (db : DB) (tags : String) :
    (flushBatch transport now { db with mGlobalTags := tags }).2 =
      (flushBatch transport now db).2 := by
  cases db with
  | mk b act size gt ft obr oce ocs st t =>
    unfold flushBatch
    dsimp only
    rw [show joinLineProtocolBatch ⟨b, act, size, tags, ft, obr, oce, ocs, st, now⟩ =
          joinLineProtocolBatch ⟨b, act, size, gt, ft, obr, oce, ocs, st, now⟩ from rfl]
    split
    · rfl
    · rcases h : transport (joinLineProtocolBatch ⟨b, act, size, gt, ft, obr, oce, ocs, st, now⟩)
        with _ | _ | _ | _ | _ <;>
      simp only [transmit, h] <;>
      first
        | rfl
        | rw [sendNotifications_tags ⟨b, act, size, gt, ft, obr, oce, ocs, st, now⟩ tags]

theorem addPointToBatch_tags (transport : String → SendOutcome) (now : Nat)
    (db : DB) (tags : String) (point : Point) :
    (addPointToBatch transport now { db with mGlobalTags := tags } point).2 =
      (addPointToBatch transport now db point).2 := by
  cases db with
  | mk b act size gt ft obr oce ocs st t =>
    unfold addPointToBatch
    dsimp only
    split
    · exact flushBatch_tags transport now
        ⟨b ++ [point.toLineProtocol], act, size, gt, ft, obr, oce, ocs, st, t⟩ tags
    · rfl

theorem write_tags (transport : String → SendOutcome) (now : Nat)
    (db : DB) (tags : String) (point : Point) :
    (write transport now { db with mGlobalTags := tags } point).2 =
      (write transport now db point).2 := by
  cases db with
  | mk b act size gt ft obr oce ocs st t =>
    unfold write
    dsimp only
    split
    · rw [addPointToBatch_tags transport now
        ⟨b, act, size, gt, ft, obr, oce, ocs, st, t⟩ tags point]
    · rfl

/-- C1 (code bug): `addGlobalTag` accumulates the `key=value` fragment in
`mGlobalTags`, but no write or flush path ever reads it — concretely, after
`addGlobalTag("host","srv1")` the payload transmitted for a point encoding
to `"m f=1i"` is exactly `"m f=1i\n"`, which does not contain the fragment;
and in general the emitted trace and the returned result of `write` are
identical for every value of `mGlobalTags`. -/
theorem global_tags_never_merged :
    (addGlobalTag (mkInfluxDB 0) "host" "srv1").mGlobalTags = "host=srv1" ∧
    (write (fun _ => SendOutcome.sendOk) 1
        (batchOf (addGlobalTag (mkInfluxDB 0) "host" "srv1") 1 0) ⟨"m f=1i"⟩).2.1 =
      [Event.sent "m f=1i\n", Event.calledConnectionSuccess 0] ∧
    containsFragment "m f=1i\n" "host=srv1" = false ∧
    (∀ (transport : String → SendOutcome) (now : Nat) (db : DB)
       (tags : String) (point : Point),
      (write transport now { db with mGlobalTags := tags } point).2 =
        (write transport now db point).2) :=
  ⟨by decide, by decide, by decide,
   fun transport now db tags point => write_tags transport now db tags point⟩

/-- C3 counterexample: with batching activated, the public write returns
`PointsBatched`, which is none of the four claimed closed-set values. -/
theorem write_returns_points_batched :
    (write (fun _ => SendOutcome.sendOk) 1 (batchOf (mkInfluxDB 0) 32 0)
        ⟨"m f=1i"⟩).2.2 = some TransmissionResult.PointsBatched ∧
    TransmissionResult.PointsBatched ≠ TransmissionResult.TransmissionSucceeded ∧
    TransmissionResult.PointsBatched ≠ TransmissionResult.ServerError ∧
    TransmissionResult.PointsBatched ≠ TransmissionResult.BadRequest ∧
    TransmissionResult.PointsBatched ≠ TransmissionResult.ConnectionFailed := by
  refine ⟨by decide, by decide, by decide, by decide, by decide⟩

/-- C3 amended: an unbatched write that returns a result returns one of the
four classified values `{Succeeded, ServerError, BadRequest,
ConnectionFailed}`; a batched write that returns a result returns the fifth
enum value `PointsBatched` instead. -/
theorem write_result_set (transport : String → SendOutcome) (now : Nat)
    (db : DB) (point : Point) :
    (db.mIsBatchingActivated = false →
      ∀ r, (write transport now db point).2.2 = some r →
        (r = TransmissionResult.TransmissionSucceeded ∨
         r = TransmissionResult.ServerError ∨
         r = TransmissionResult.BadRequest ∨
         r = TransmissionResult.ConnectionFailed)) ∧
    (db.mIsBatchingActivated = true →
      ∀ r, (write transport now db point).2.2 = some r →
        r = TransmissionResult.PointsBatched) := by
  constructor
  · intro hunb r hr
    unfold write at hr
    rw [if_neg (by simp [hunb])] at hr
    dsimp only at hr
    rcases h : transport point.toLineProtocol with _ | _ | _ | _ | _ <;>
      simp only [transmit, h] at hr <;>
      first
        | (injection hr with hr; subst hr; simp)
        | exact absurd hr (by simp)
  · intro hact r hr
    unfold write at hr
    rw [if_pos (by simp [hact])] at hr
    dsimp only at hr
    cases hesc : (addPointToBatch transport now db point).2.2 <;>
      simp [hesc] at hr
    exact hr.symm

/-- Witness for C3 (amended): an unbatched write against an unreachable
transport yields a value in the closed set (`ConnectionFailed`), and a
batched write yields `PointsBatched`. -/
theorem write_result_set_witness :
    (TransmissionResult.ConnectionFailed = TransmissionResult.TransmissionSucceeded ∨
     TransmissionResult.ConnectionFailed = TransmissionResult.ServerError ∨
     TransmissionResult.ConnectionFailed = TransmissionResult.BadRequest ∨
     TransmissionResult.ConnectionFailed = TransmissionResult.ConnectionFailed) ∧
    TransmissionResult.PointsBatched = TransmissionResult.PointsBatched :=
  ⟨(write_result_set (fun _ => SendOutcome.raiseConnectionError) 1 (mkInfluxDB 0)
      ⟨"m f=1i"⟩).1 rfl TransmissionResult.ConnectionFailed rfl,
   (write_result_set (fun _ => SendOutcome.sendOk) 1 (batchOf (mkInfluxDB 0) 32 0)
      ⟨"m f=1i"⟩).2 rfl TransmissionResult.PointsBatched rfl⟩

theorem sendNotifications_badRequest_calls (db : DB) :
    countBadRequestCalls (sendNotifications db TransmissionResult.BadRequest).2 = 1 := by
  cases h : db.mLastConnectionStatus <;>
    simp [sendNotifications, notifyConnectionSuccess, h, countBadRequestCalls]

/-- C5 counterexample: an unbatched write whose transmission is classified
`BadRequest` fires no bad-request callback at all. -/
theorem unbatched_bad_request_no_callback :
    (write (fun _ => SendOutcome.raiseBadRequest) 1 (mkInfluxDB 0) ⟨"m f=1i"⟩).2.2 =
      some TransmissionResult.BadRequest ∧
    countBadRequestCalls
      (write (fun _ => SendOutcome.raiseBadRequest) 1 (mkInfluxDB 0)
        ⟨"m f=1i"⟩).2.1 = 0 :=
  ⟨rfl, rfl⟩

/-- C5 amended: every flush whose transmission is classified `BadRequest`
fires the bad-request callback exactly once, whatever the stored connection
status; an unbatched write never fires any callback. -/
theorem flush_bad_request_always_fires (transport : String → SendOutcome)
    (now : Nat) (db : DB) (point : Point)
    (hact : db.mIsBatchingActivated = true)
    (hne : db.mLineProtocolBatch ≠ [])
    (hbr : transport (joinLineProtocolBatch db) = SendOutcome.raiseBadRequest) :
    countBadRequestCalls (flushBatch transport now db).2.1 = 1 ∧
    (∀ db2 : DB, db2.mIsBatchingActivated = false →
      countBadRequestCalls (write transport now db2 point).2.1 = 0) := by
  constructor
  · unfold flushBatch
    dsimp only
    rw [if_neg (by simp [hact, hne]), joinLineProtocolBatch_time]
    simp only [transmit, hbr]
    rw [countBadRequestCalls_append, sendNotifications_badRequest_calls]
    rfl
  · intro db2 h2
    unfold write
    rw [if_neg (by simp [h2])]
    rfl

/-- Witness for C5 (amended): one pending line, transport rejects it as a
bad request, the bad-request callback fires exactly once. -/
theorem flush_bad_request_always_fires_witness :
    countBadRequestCalls
      (flushBatch (fun _ => SendOutcome.raiseBadRequest) 2 dbWithPending).2.1 = 1 :=
  (flush_bad_request_always_fires (fun _ => SendOutcome.raiseBadRequest) 2
    dbWithPending ⟨"x f=1i"⟩ (by decide) (by decide) rfl).1

/-- C6 counterexample: after the status settled at `ConnectionSuccess`
(hence not `Unknown`), registering an error callback invokes nothing,
although the claim predicts one synchronous invocation of the callback
corresponding to the last observed status. -/
theorem late_error_registration_invokes_nothing :
    ((write (fun _ => SendOutcome.sendOk) 1 (batchOf (mkInfluxDB 0) 1 0)
        ⟨"m f=1i"⟩).1.mLastConnectionStatus = ConnectionStatus.ConnectionSuccess) ∧
    (onConnectionError
        (write (fun _ => SendOutcome.sendOk) 1 (batchOf (mkInfluxDB 0) 1 0)
          ⟨"m f=1i"⟩).1 5).2 = [] := by
  refine ⟨by decide, by decide⟩

/-- C6 amended: registering an error (resp. success) callback stores it and
synchronously invokes the newly registered callback exactly once iff the
stored status equals the matching state (`ConnectionError` resp.
`ConnectionSuccess`); in every other case — including the pre-settlement
status `Unknown`, and a mismatch between callback kind and settled status —
nothing is invoked. -/
theorem late_registration_replays_matching_status (db : DB) (callback : Nat) :
    (onConnectionError db callback).1 =
      { db with mOnConnectionError := callback } ∧
    (onTransmissionSucceeded db callback).1 =
      { db with mOnConnectionSucceeded := callback } ∧
    ((onConnectionError db callback).2 =
      if db.mLastConnectionStatus = ConnectionStatus.ConnectionError then
        [Event.calledConnectionError callback]
      else []) ∧
    ((onTransmissionSucceeded db callback).2 =
      if db.mLastConnectionStatus = ConnectionStatus.ConnectionSuccess then
        [Event.calledConnectionSuccess callback]
      else []) := by
  refine ⟨?_, ?_, ?_, ?_⟩
  · unfold onConnectionError
    dsimp only
    split <;> rfl
  · unfold onTransmissionSucceeded
    dsimp only
    split <;> rfl
  · unfold onConnectionError
    dsimp only
    split <;> rename_i h <;> simp [h]
  · unfold onTransmissionSucceeded
    dsimp only
    split <;> rename_i h <;> simp [h]

end InfluxDBSpec
